import Mathlib

/-!
Verification development for the PlotFontManager repository.

The repository has two Python source files:
  - PlotFontManager.py : a class that maps logical font names to font
    files, registers them with matplotlib and applies them globally;
  - pfm_build_map.py : a CLI helper that parses fc-list output into a
    logical-name-to-path mapping.

We shallowly embed the relevant functions.  Python dicts become ordered
association lists with CPython insert/update semantics (updating an
existing key keeps its position; a new key is appended).  External
collaborators are oracles: the filesystem is a predicate on paths,
matplotlib name derivation is a possibly failing function on paths, the
fc-list subprocess outcome and the pfm.json file content are inductive
data.  Exceptions become an explicit error type threaded through the
result, and methods that can mutate state return the updated state.
-/

namespace PFM

/-- Errors the embedded code can raise: KeyError from a failed dict
subscript, FileNotFoundError from the existence check in resolution,
and a failure inside the font registration collaborator. -/
inductive Err where
  | keyError
  | fileNotFound
  | registerError
  deriving DecidableEq, Repr

/-- Ordered string-to-string dictionary, as CPython keeps it: a list of
key-value pairs in insertion order with no duplicate keys. -/
abbrev Dict := List (String × String)

/-- Embeds d.get(k) / d[k]: value of the first entry with key k. -/
def dictGet (d : Dict) (k : String) : Option String :=
  match d with
  | [] => none
  | (k₁, v₁) :: rest => if k₁ = k then some v₁ else dictGet rest k

/-- Embeds d[k] = v with CPython order semantics: an existing key keeps
its position and gets the new value, a new key is appended at the end. -/
def dictSet (d : Dict) (k v : String) : Dict :=
  match d with
  | [] => [(k, v)]
  | (k₁, v₁) :: rest =>
      if k₁ = k then (k₁, v) :: rest else (k₁, v₁) :: dictSet rest k v

/-- Embeds d.update(other): set every entry of other in order. -/
def dictUpdate (d other : Dict) : Dict :=
  other.foldl (fun acc p => dictSet acc p.1 p.2) d

/-- Embeds os.path.isabs on a POSIX system: the path starts with a
slash. -/
def isAbs (p : String) : Bool :=
  match p.data with
  | [] => false
  | c :: _ => c = '/'

/-- Embeds os.path.join a b on POSIX for the cases the code exercises:
an absolute second component wins, otherwise the components are joined
with exactly one separating slash. -/
def pathJoin (a b : String) : String :=
  if isAbs b then b
  else if a = "" then b
  else if a.data.getLast? = some '/' then a ++ b
  else a ++ "/" ++ b

/-- The built-in baseline font_map from PlotFontManager.__init__. -/
def builtinFontMap : Dict :=
  [("Helvetica Neue", "HelveticaNeue.ttc"),
   ("Helvetica", "Helvetica.ttc"),
   ("Futura", "Futura.ttc"),
   ("Futura ND Book", "Neufville Digital - Futura ND Book.ttf"),
   ("Futura ND Bold", "Neufville Digital - Futura ND Bold.ttf"),
   ("Optima", "Optima.ttc"),
   ("Baskerville", "Baskerville.ttc"),
   ("Myriad", "MyriadPro-Regular.otf"),
   ("Hiragino", "ヒラギノ角ゴシック W3.ttc")]

/-- Outcome of looking for pfm.json next to the module, as the code
distinguishes the cases: the file is absent, it parses to a JSON object
of string entries, or it is malformed (not a dict, unreadable or
unparseable; the code warns and ignores it either way). -/
inductive PfmFile where
  | absent
  | obj (entries : Dict)
  | malformed
  deriving Repr

/-- Instance state of the PlotFontManager class. -/
structure PlotFontManager where
  font_dir : String
  default_font : String
  font_map : Dict
  loaded_fonts : Dict
  current_internal_name : Option String
  deriving DecidableEq, Repr

/-- Process-wide matplotlib state the class touches: the two rcParams
keys it writes and the font registry fed by fontManager.addfont
(modelled as the list of registered paths, in call order). -/
structure MplGlobals where
  rc_font_family : Option String
  rc_unicode_minus : Bool
  registered : List String
  deriving DecidableEq, Repr

/-- The font_map built by __init__ plus _load_local_json_override:
built-in table, then extra_map if given, then the pfm.json contents if
the file is present and is a dict; a malformed file is ignored. -/
def buildFontMap (extra : Option Dict) (file : PfmFile) : Dict :=
  let m := builtinFontMap
  let m := match extra with
           | some e => dictUpdate m e
           | none => m
  match file with
  | PfmFile.obj d => dictUpdate m d
  | _ => m

/-- Embeds PlotFontManager.__init__ (the try/except in
_load_local_json_override makes construction total). -/
def mkManager (font_dir default_font : String) (extra : Option Dict)
    (file : PfmFile) : PlotFontManager :=
  { font_dir := font_dir
    default_font := default_font
    font_map := buildFontMap extra file
    loaded_fonts := []
    current_internal_name := none }

/-- Embeds PlotFontManager._resolve_path.  The Python line
fname = self.font_map.get(fontname, self.font_map[self.default_font])
evaluates the default argument before the get call, so a missing
default_font key raises KeyError unconditionally.  fs is the
os.path.exists oracle. -/
def resolvePath (fs : String → Bool) (self : PlotFontManager)
    (fontname : String) : Except Err String :=
  match dictGet self.font_map self.default_font with
  | none => Except.error Err.keyError
  | some defaultVal =>
      let fname := (dictGet self.font_map fontname).getD defaultVal
      let font_path := if isAbs fname then fname
                       else pathJoin self.font_dir fname
      if fs font_path then Except.ok font_path
      else Except.error Err.fileNotFound

/-- Embeds PlotFontManager._register_font.  hasAddfont is the hasattr
check on fm.fontManager; when it holds, addfont appends the path to the
matplotlib registry before the name query.  getName is the oracle for
FontProperties(fname=path).get_name(), which may fail inside
matplotlib; addfont has happened by then, so the registry keeps the
path even on failure. -/
def registerFont (hasAddfont : Bool) (getName : String → Except Err String)
    (g : MplGlobals) (font_path : String) : Except Err String × MplGlobals :=
  let g₁ := if hasAddfont then
              { g with registered := g.registered ++ [font_path] }
            else g
  match getName font_path with
  | Except.error e => (Except.error e, g₁)
  | Except.ok internal_name => (Except.ok internal_name, g₁)

/-- Embeds PlotFontManager.set_font: resolve the path, look the logical
name up in loaded_fonts (registering and caching on a miss), then write
rcParams and current_internal_name.  A raised exception propagates
before any later statement runs, so the method returns the original
state on every error path (the addfont side effect inside registration
excepted, as in the source). -/
def set_font (fs : String → Bool) (hasAddfont : Bool)
    (getName : String → Except Err String) (self : PlotFontManager)
    (g : MplGlobals) (fontname : String) :
    Except Err String × PlotFontManager × MplGlobals :=
  match resolvePath fs self fontname with
  | Except.error e => (Except.error e, self, g)
  | Except.ok font_path =>
      match dictGet self.loaded_fonts fontname with
      | some internal_name =>
          (Except.ok internal_name,
           { self with current_internal_name := some internal_name },
           { g with rc_font_family := some internal_name,
                    rc_unicode_minus := false })
      | none =>
          match registerFont hasAddfont getName g font_path with
          | (Except.error e, g₁) => (Except.error e, self, g₁)
          | (Except.ok internal_name, g₁) =>
              (Except.ok internal_name,
               { self with
                   loaded_fonts :=
                     dictSet self.loaded_fonts fontname internal_name,
                   current_internal_name := some internal_name },
               { g₁ with rc_font_family := some internal_name,
                         rc_unicode_minus := false })

/-- A matplotlib FontProperties handle built from a file path, as
get_fontprop returns it. -/
structure FontProperties where
  fname : String
  deriving DecidableEq, Repr

/-- Embeds PlotFontManager.get_fontprop: resolve the path and wrap it
in a FontProperties handle.  The method assigns nothing, so the
instance and global state come back unchanged on every path. -/
def get_fontprop (fs : String → Bool) (self : PlotFontManager)
    (g : MplGlobals) (fontname : String) :
    Except Err FontProperties × PlotFontManager × MplGlobals :=
  match resolvePath fs self fontname with
  | Except.error e => (Except.error e, self, g)
  | Except.ok path => (Except.ok (FontProperties.mk path), self, g)

end PFM

namespace PfmBuildMap

/-- Outcome of subprocess.run on fc-list with check=True, as the code
distinguishes the cases: FileNotFoundError when the executable is
absent, CalledProcessError on a non-zero exit, or captured stdout. -/
inductive FcListOutcome where
  | missing
  | failed (returncode : Nat)
  | ok (stdout : String)

/-- Errors collect_fc_list can raise: the RuntimeError it substitutes
for a missing fc-list, and the CalledProcessError that check=True lets
propagate on a non-zero exit. -/
inductive ToolErr where
  | toolMissing
  | toolError
  deriving DecidableEq, Repr

/-- Characters Python treats as whitespace for str.strip and the regex
class backslash-s, restricted to ASCII as fc-list output uses. -/
def pyIsSpace (c : Char) : Bool :=
  c = ' ' ∨ c = '\t' ∨ c = '\n' ∨ c = '\x0d' ∨ c = '\x0b' ∨ c = '\x0c'

/-- Embeds str.strip(): drop leading and trailing whitespace. -/
def pyStrip (s : String) : String :=
  String.mk (((s.data.dropWhile pyIsSpace).reverse.dropWhile pyIsSpace).reverse)

/-- Embeds re.sub of one-or-more whitespace with a single space, on a
character list, tracking whether the previous character was folded. -/
def collapseWSAux : Bool → List Char → List Char
  | _, [] => []
  | prevWS, c :: rest =>
      if pyIsSpace c then
        if prevWS then collapseWSAux true rest
        else ' ' :: collapseWSAux true rest
      else c :: collapseWSAux false rest

/-- Embeds re.sub of whitespace runs with single spaces on a string. -/
def collapseWS (s : String) : String :=
  String.mk (collapseWSAux false s.data)

/-- Splits a character list at every occurrence of the character c,
keeping empty segments (the plain split, before line-ending fixup). -/
def splitOnChar (c : Char) : List Char → List (List Char)
  | [] => [[]]
  | x :: xs =>
      let r := splitOnChar c xs
      if x = c then [] :: r
      else match r with
           | [] => [[x]]
           | h :: t => (x :: h) :: t

/-- Embeds str.splitlines() for newline-separated text: newlines are
terminators, so a trailing newline adds no empty final line. -/
def splitlines (s : String) : List String :=
  if s.data = [] then []
  else
    let parts := splitOnChar '\n' s.data
    let parts := if parts.getLast? = some [] then parts.dropLast else parts
    parts.map String.mk

/-- Breaks a character list at the first occurrence of c; none when c
does not occur (the "c in line" test plus split(c, 1) combined). -/
def breakAtFirst (c : Char) : List Char → Option (List Char × List Char)
  | [] => none
  | x :: xs =>
      if x = c then some ([], xs)
      else match breakAtFirst c xs with
           | none => none
           | some (a, b) => some (x :: a, b)

/-- Embeds the body of the parsing loop of collect_fc_list for one
line: skip lines without a colon, split at the first colon into path
and family, take the first comma-separated alias stripped, collapse
whitespace runs, and skip records whose family came out empty. -/
def parseLine (line : String) : Option (String × String) :=
  match breakAtFirst ':' line.data with
  | none => none
  | some (pathCs, familyCs) =>
      let firstAlias :=
        match breakAtFirst ',' familyCs with
        | none => familyCs
        | some (a, _) => a
      let first_family := collapseWS (pyStrip (String.mk firstAlias))
      if first_family = "" then none
      else some (pyStrip (String.mk pathCs), first_family)

/-- Embeds collect_fc_list: a missing executable becomes the
RuntimeError (ToolMissing), a non-zero exit propagates the
CalledProcessError (ToolError), and on success every stdout line goes
through the parsing loop. -/
def collect_fc_list (run : FcListOutcome) :
    Except ToolErr (List (String × String)) :=
  match run with
  | FcListOutcome.missing => Except.error ToolErr.toolMissing
  | FcListOutcome.failed _ => Except.error ToolErr.toolError
  | FcListOutcome.ok stdout =>
      Except.ok ((splitlines stdout).filterMap parseLine)

/-- Embeds build_map: fold over the entries in order, drop families the
filter rejects, and on the first occurrence of a family store the path
sent through the Path(path).resolve() oracle.  The mapping is an
ordered dict, so kept keys appear in first-occurrence order. -/
def build_map (resolveAbs : String → String)
    (entries : List (String × String))
    (family_filter : Option (String → Bool)) : PFM.Dict :=
  entries.foldl
    (fun mapping e =>
      let keep := match family_filter with
                  | some f => f e.2
                  | none => true
      if keep = false then mapping
      else if (PFM.dictGet mapping e.2).isSome then mapping
      else mapping ++ [(e.2, resolveAbs e.1)])
    []

end PfmBuildMap

namespace PFM

/-- Looking up the key just set finds the value just stored. -/
theorem dictGet_dictSet_self (d : Dict) (k v : String) :
    dictGet (dictSet d k v) k = some v := by
  induction d with
  | nil => simp [dictSet, dictGet]
  | cons p rest ih =>
      obtain ⟨k₁, v₁⟩ := p
      by_cases hk : k₁ = k
      · simp [dictSet, dictGet, hk]
      · simp [dictSet, dictGet, hk, ih]

/-- Updating with a singleton dict is a single set. -/
theorem dictUpdate_singleton (d : Dict) (k v : String) :
    dictUpdate d [(k, v)] = dictSet d k v := rfl

/-- Path resolution reads only the configuration fields font_map,
default_font and font_dir, never the caches. -/
theorem resolvePath_eq_of_config (fs : String → Bool)
    (s₁ s₂ : PlotFontManager) (f : String)
    (h₁ : s₁.font_map = s₂.font_map)
    (h₂ : s₁.default_font = s₂.default_font)
    (h₃ : s₁.font_dir = s₂.font_dir) :
    resolvePath fs s₁ f = resolvePath fs s₂ f := by
  unfold resolvePath
  rw [h₁, h₂, h₃]

/-- The global state registerFont returns differs from its input at
most in the registry list; the rcParams fields pass through. -/
theorem registerFont_snd (ha : Bool) (gn : String → Except Err String)
    (g : MplGlobals) (p : String) :
    (registerFont ha gn g p).2 =
      (if ha then { g with registered := g.registered ++ [p] } else g) := by
  unfold registerFont
  cases gn p <;> simp

/-- When resolution succeeds and the name is cached, set_font takes the
memoized branch: it returns the cached identifier and only writes
rcParams and current_internal_name. -/
theorem set_font_cached (fs : String → Bool) (ha : Bool)
    (gn : String → Except Err String) (self : PlotFontManager)
    (g : MplGlobals) (X p i : String)
    (hres : resolvePath fs self X = Except.ok p)
    (hmem : dictGet self.loaded_fonts X = some i) :
    set_font fs ha gn self g X =
      (Except.ok i,
       { self with current_internal_name := some i },
       { g with rc_font_family := some i, rc_unicode_minus := false }) := by
  unfold set_font
  rw [hres, hmem]

end PFM

open PFM PfmBuildMap

/-- C3: merge priority at construction.  Given a built-in entry K → A,
a caller-supplied extra_map entry K → B and an override-file entry
K → C, the font_map the constructor builds resolves K to C: the
built-in table is updated by extra_map and then by pfm.json, so later
sources win on key collision. -/
theorem merge_priority_override_file_wins
    (fd df K A B C : String)
    (_hA : dictGet builtinFontMap K = some A) :
    dictGet (mkManager fd df (some [(K, B)]) (PfmFile.obj [(K, C)])).font_map K
      = some C := by
  show dictGet (dictUpdate (dictUpdate builtinFontMap [(K, B)]) [(K, C)]) K
        = some C
  rw [dictUpdate_singleton, dictUpdate_singleton]
  exact dictGet_dictSet_self _ _ _

/-- Witness for C3 at a concrete built-in key. -/
theorem merge_priority_override_file_wins_w :
    dictGet builtinFontMap "Helvetica" = some "Helvetica.ttc"
    ∧ dictGet (mkManager "/f" "Helvetica" (some [("Helvetica", "B.ttf")])
        (PfmFile.obj [("Helvetica", "C.ttf")])).font_map "Helvetica"
        = some "C.ttf" :=
  ⟨by decide,
   merge_priority_override_file_wins "/f" "Helvetica" "Helvetica"
     "Helvetica.ttc" "B.ttf" "C.ttf" (by decide)⟩

/-- C4: a logical name absent from font_map falls back to the default
entry.  When the default logical name has an entry dval and the path
built from dval exists, _resolve_path returns that path instead of
failing, and get_fontprop wraps the same path. -/
theorem resolve_path_unknown_falls_back_to_default
    (fs : String → Bool) (self : PlotFontManager) (g : MplGlobals)
    (fontname dval : String)
    (hK : dictGet self.font_map fontname = none)
    (hD : dictGet self.font_map self.default_font = some dval)
    (hfs : fs (if isAbs dval then dval else pathJoin self.font_dir dval)
            = true) :
    resolvePath fs self fontname =
      Except.ok (if isAbs dval then dval else pathJoin self.font_dir dval)
    ∧ (get_fontprop fs self g fontname).1 =
      Except.ok (FontProperties.mk
        (if isAbs dval then dval else pathJoin self.font_dir dval)) := by
  have hres : resolvePath fs self fontname =
      Except.ok (if isAbs dval then dval else pathJoin self.font_dir dval) := by
    unfold resolvePath
    rw [hD, hK]
    simp [hfs]
  refine ⟨hres, ?_⟩
  unfold get_fontprop
  rw [hres]

/-- Witness for C4: an unknown name resolves to the default entry. -/
theorem resolve_path_unknown_falls_back_to_default_w :
    dictGet (mkManager "/fonts" "Helvetica Neue" none PfmFile.absent).font_map
      "Nope" = none
    ∧ resolvePath (fun p => p == "/fonts/HelveticaNeue.ttc")
        (mkManager "/fonts" "Helvetica Neue" none PfmFile.absent) "Nope"
        = Except.ok "/fonts/HelveticaNeue.ttc" := by
  refine ⟨by decide, ?_⟩
  have h := resolve_path_unknown_falls_back_to_default
    (fun p => p == "/fonts/HelveticaNeue.ttc")
    (mkManager "/fonts" "Helvetica Neue" none PfmFile.absent)
    (MplGlobals.mk none true []) "Nope" "HelveticaNeue.ttc"
    (by decide) (by decide) (by decide)
  exact h.1

/-- C5: when default_font is not a key of font_map, every resolution
raises KeyError, names present in the mapping included, because the
fallback expression font_map[default_font] is evaluated before the get
call; set_font and get_fontprop propagate the same error. -/
theorem resolve_path_keyerror_when_default_missing
    (fs : String → Bool) (ha : Bool) (gn : String → Except Err String)
    (self : PlotFontManager) (g : MplGlobals) (fontname : String)
    (hD : dictGet self.font_map self.default_font = none) :
    resolvePath fs self fontname = Except.error Err.keyError
    ∧ (set_font fs ha gn self g fontname).1 = Except.error Err.keyError
    ∧ (get_fontprop fs self g fontname).1 = Except.error Err.keyError := by
  have hres : resolvePath fs self fontname = Except.error Err.keyError := by
    unfold resolvePath
    rw [hD]
  refine ⟨hres, ?_, ?_⟩
  · unfold set_font
    rw [hres]
  · unfold get_fontprop
    rw [hres]

/-- Witness for C5: with a missing default key, a name that IS present
in the mapping still raises KeyError even though its file exists. -/
theorem resolve_path_keyerror_when_default_missing_w :
    dictGet (mkManager "/fonts" "Nope" none PfmFile.absent).font_map
      "Helvetica" = some "Helvetica.ttc"
    ∧ resolvePath (fun _ => true)
        (mkManager "/fonts" "Nope" none PfmFile.absent) "Helvetica"
        = Except.error Err.keyError :=
  ⟨by decide,
   (resolve_path_keyerror_when_default_missing (fun _ => true) true
      (fun _ => Except.ok "x")
      (mkManager "/fonts" "Nope" none PfmFile.absent)
      (MplGlobals.mk none true []) "Helvetica" (by decide)).1⟩

/-- C6: with the default entry present, resolution of a mapped name
uses the mapped value verbatim when it is an absolute path and joins it
with font_dir otherwise, and the outcome is NotFound exactly when the
resulting path fails the existence check; nothing else happens to the
value. -/
theorem resolve_path_verbatim_or_join
    (fs : String → Bool) (self : PlotFontManager) (fontname dval v : String)
    (hD : dictGet self.font_map self.default_font = some dval)
    (hv : dictGet self.font_map fontname = some v) :
    (isAbs v = true →
      resolvePath fs self fontname =
        (if fs v then Except.ok v else Except.error Err.fileNotFound))
    ∧ (isAbs v = false →
      resolvePath fs self fontname =
        (if fs (pathJoin self.font_dir v)
         then Except.ok (pathJoin self.font_dir v)
         else Except.error Err.fileNotFound)) := by
  unfold resolvePath
  rw [hD, hv]
  constructor
  · intro habs
    simp [habs]
  · intro habs
    simp [habs]

/-- Witness for C6 on both branches: an absolute mapped value is used
verbatim, a relative one is joined with font_dir, and a missing file
gives NotFound. -/
theorem resolve_path_verbatim_or_join_w :
    (resolvePath (fun p => p == "/abs/X.ttf")
        (mkManager "/fonts" "X" (some [("X", "/abs/X.ttf")]) PfmFile.absent)
        "X" = Except.ok "/abs/X.ttf")
    ∧ (resolvePath (fun p => p == "/fonts/Helvetica.ttc")
        (mkManager "/fonts" "Helvetica" none PfmFile.absent)
        "Helvetica" = Except.ok "/fonts/Helvetica.ttc")
    ∧ (resolvePath (fun _ => false)
        (mkManager "/fonts" "Helvetica" none PfmFile.absent)
        "Helvetica" = Except.error Err.fileNotFound) := by
  refine ⟨?_, ?_, ?_⟩
  · have h := (resolve_path_verbatim_or_join (fun p => p == "/abs/X.ttf")
      (mkManager "/fonts" "X" (some [("X", "/abs/X.ttf")]) PfmFile.absent)
      "X" "/abs/X.ttf" "/abs/X.ttf" (by decide) (by decide)).1 (by decide)
    exact h
  · have h := (resolve_path_verbatim_or_join (fun p => p == "/fonts/Helvetica.ttc")
      (mkManager "/fonts" "Helvetica" none PfmFile.absent)
      "Helvetica" "Helvetica.ttc" "Helvetica.ttc" (by decide) (by decide)).2
      (by decide)
    exact h
  · have h := (resolve_path_verbatim_or_join (fun _ => false)
      (mkManager "/fonts" "Helvetica" none PfmFile.absent)
      "Helvetica" "Helvetica.ttc" "Helvetica.ttc" (by decide) (by decide)).2
      (by decide)
    exact h

/-- C7: a malformed pfm.json never makes construction raise (the
embedded constructor is total because the source wraps the load in a
broad try/except) and contributes nothing: the manager equals the one
built with no override file at all, and its font_map is exactly the
built-in table updated by the caller overrides. -/
theorem malformed_override_file_soft_failure
    (fd df : String) (extra : Option Dict) :
    mkManager fd df extra PfmFile.malformed
      = mkManager fd df extra PfmFile.absent
    ∧ (mkManager fd df extra PfmFile.malformed).font_map
      = (match extra with
         | some e => dictUpdate builtinFontMap e
         | none => builtinFontMap) := by
  cases extra <;> exact ⟨rfl, rfl⟩

/-- C1: error atomicity of set_font.  Whenever set_font raises, the
instance state comes back unchanged — so loaded_fonts and
current_internal_name are untouched — and both rcParams keys keep their
previous values, because resolution runs before registration and both
run before the global writes. -/
theorem set_font_error_leaves_state_unchanged
    (fs : String → Bool) (ha : Bool) (gn : String → Except Err String)
    (self : PlotFontManager) (g : MplGlobals) (fontname : String) (e : Err)
    (h : (set_font fs ha gn self g fontname).1 = Except.error e) :
    (set_font fs ha gn self g fontname).2.1 = self
    ∧ (set_font fs ha gn self g fontname).2.1.loaded_fonts
        = self.loaded_fonts
    ∧ (set_font fs ha gn self g fontname).2.1.current_internal_name
        = self.current_internal_name
    ∧ (set_font fs ha gn self g fontname).2.2.rc_font_family
        = g.rc_font_family
    ∧ (set_font fs ha gn self g fontname).2.2.rc_unicode_minus
        = g.rc_unicode_minus := by
  cases h₁ : resolvePath fs self fontname with
  | error e₁ =>
      simp [set_font, h₁]
  | ok p =>
      cases h₂ : dictGet self.loaded_fonts fontname with
      | some n =>
          simp only [set_font, h₁, h₂] at h
          exact absurd h (by simp)
      | none =>
          rcases hreg : registerFont ha gn g p with ⟨res, g₁⟩
          cases res with
          | ok n =>
              simp only [set_font, h₁, h₂, hreg] at h
              exact absurd h (by simp)
          | error e₁ =>
              simp only [set_font, h₁, h₂, hreg]
              refine ⟨by trivial, by trivial, by trivial, ?_, ?_⟩ <;>
              · rw [show g₁ = (registerFont ha gn g p).2 from by rw [hreg],
                    registerFont_snd]
                cases ha <;> simp

/-- Witness for C1: a failing resolution (no file exists) leaves the
whole state alone. -/
theorem set_font_error_leaves_state_unchanged_w :
    ((set_font (fun _ => false) true (fun _ => Except.ok "HN")
        (mkManager "/fonts" "Helvetica Neue" none PfmFile.absent)
        (MplGlobals.mk none true []) "Helvetica").1
      = Except.error Err.fileNotFound)
    ∧ (set_font (fun _ => false) true (fun _ => Except.ok "HN")
        (mkManager "/fonts" "Helvetica Neue" none PfmFile.absent)
        (MplGlobals.mk none true []) "Helvetica").2.1
      = mkManager "/fonts" "Helvetica Neue" none PfmFile.absent :=
  ⟨rfl,
   (set_font_error_leaves_state_unchanged (fun _ => false) true
      (fun _ => Except.ok "HN")
      (mkManager "/fonts" "Helvetica Neue" none PfmFile.absent)
      (MplGlobals.mk none true []) "Helvetica" Err.fileNotFound rfl).1⟩

/-- C2: idempotence of set_font through the loaded_fonts memo.  If one
call returns identifier i, an immediately following call with the same
logical name returns i again, performs no further host registration
(the matplotlib registry list is unchanged) and adds nothing to the
memo table. -/
theorem set_font_idempotent_memoized
    (fs : String → Bool) (ha : Bool) (gn : String → Except Err String)
    (self : PlotFontManager) (g : MplGlobals) (X i : String)
    (h : (set_font fs ha gn self g X).1 = Except.ok i) :
    (set_font fs ha gn (set_font fs ha gn self g X).2.1
        (set_font fs ha gn self g X).2.2 X).1 = Except.ok i
    ∧ (set_font fs ha gn (set_font fs ha gn self g X).2.1
        (set_font fs ha gn self g X).2.2 X).2.2.registered
      = (set_font fs ha gn self g X).2.2.registered
    ∧ (set_font fs ha gn (set_font fs ha gn self g X).2.1
        (set_font fs ha gn self g X).2.2 X).2.1.loaded_fonts
      = (set_font fs ha gn self g X).2.1.loaded_fonts := by
  cases h₁ : resolvePath fs self X with
  | error e₁ =>
      simp only [set_font, h₁] at h
      exact absurd h (by simp)
  | ok p =>
      cases h₂ : dictGet self.loaded_fonts X with
      | some n =>
          have hfirst := set_font_cached fs ha gn self g X p n h₁ h₂
          have hn : n = i := by
            rw [hfirst] at h
            simpa using h
          subst hn
          have hres₂ : resolvePath fs
              { self with current_internal_name := some n } X
              = Except.ok p := by
            rw [resolvePath_eq_of_config fs
              { self with current_internal_name := some n } self X rfl rfl rfl]
            exact h₁
          have hsecond := set_font_cached fs ha gn
            { self with current_internal_name := some n }
            { g with rc_font_family := some n, rc_unicode_minus := false }
            X p n hres₂ h₂
          rw [hfirst]
          dsimp only
          dsimp only at hsecond
          rw [hsecond]
          exact ⟨rfl, rfl, rfl⟩
      | none =>
          rcases hreg : registerFont ha gn g p with ⟨res, g₁⟩
          cases res with
          | error e₁ =>
              simp only [set_font, h₁, h₂, hreg] at h
              exact absurd h (by simp)
          | ok n =>
              have hfirst : set_font fs ha gn self g X
                  = (Except.ok n,
                     { self with
                         loaded_fonts := dictSet self.loaded_fonts X n,
                         current_internal_name := some n },
                     { g₁ with rc_font_family := some n,
                               rc_unicode_minus := false }) := by
                simp only [set_font, h₁, h₂, hreg]
              have hn : n = i := by
                rw [hfirst] at h
                simpa using h
              subst hn
              have hres₂ : resolvePath fs
                  { self with
                      loaded_fonts := dictSet self.loaded_fonts X n,
                      current_internal_name := some n } X
                  = Except.ok p := by
                rw [resolvePath_eq_of_config fs
                  { self with
                      loaded_fonts := dictSet self.loaded_fonts X n,
                      current_internal_name := some n } self X rfl rfl rfl]
                exact h₁
              have hmem₂ : dictGet
                  ({ self with
                      loaded_fonts := dictSet self.loaded_fonts X n,
                      current_internal_name := some n } :
                    PlotFontManager).loaded_fonts X = some n :=
                dictGet_dictSet_self self.loaded_fonts X n
              have hsecond := set_font_cached fs ha gn
                { self with
                    loaded_fonts := dictSet self.loaded_fonts X n,
                    current_internal_name := some n }
                { g₁ with rc_font_family := some n,
                          rc_unicode_minus := false }
                X p n hres₂ hmem₂
              rw [hfirst]
              dsimp only
              dsimp only at hsecond
              rw [hsecond]
              exact ⟨rfl, rfl, rfl⟩

/-- Witness for C2: a successful first call, then the second call
returns the same identifier with no new registration. -/
theorem set_font_idempotent_memoized_w :
    ((set_font (fun p => p == "/fonts/HelveticaNeue.ttc") true
        (fun _ => Except.ok "Helvetica Neue")
        (mkManager "/fonts" "Helvetica Neue" none PfmFile.absent)
        (MplGlobals.mk none true []) "Helvetica Neue").1
      = Except.ok "Helvetica Neue")
    ∧ ((set_font (fun p => p == "/fonts/HelveticaNeue.ttc") true
        (fun _ => Except.ok "Helvetica Neue")
        (set_font (fun p => p == "/fonts/HelveticaNeue.ttc") true
          (fun _ => Except.ok "Helvetica Neue")
          (mkManager "/fonts" "Helvetica Neue" none PfmFile.absent)
          (MplGlobals.mk none true []) "Helvetica Neue").2.1
        (set_font (fun p => p == "/fonts/HelveticaNeue.ttc") true
          (fun _ => Except.ok "Helvetica Neue")
          (mkManager "/fonts" "Helvetica Neue" none PfmFile.absent)
          (MplGlobals.mk none true []) "Helvetica Neue").2.2
        "Helvetica Neue").1 = Except.ok "Helvetica Neue")
    ∧ ((set_font (fun p => p == "/fonts/HelveticaNeue.ttc") true
        (fun _ => Except.ok "Helvetica Neue")
        (set_font (fun p => p == "/fonts/HelveticaNeue.ttc") true
          (fun _ => Except.ok "Helvetica Neue")
          (mkManager "/fonts" "Helvetica Neue" none PfmFile.absent)
          (MplGlobals.mk none true []) "Helvetica Neue").2.1
        (set_font (fun p => p == "/fonts/HelveticaNeue.ttc") true
          (fun _ => Except.ok "Helvetica Neue")
          (mkManager "/fonts" "Helvetica Neue" none PfmFile.absent)
          (MplGlobals.mk none true []) "Helvetica Neue").2.2
        "Helvetica Neue").2.2.registered = ["/fonts/HelveticaNeue.ttc"]) := by
  have h := set_font_idempotent_memoized
    (fun p => p == "/fonts/HelveticaNeue.ttc") true
    (fun _ => Except.ok "Helvetica Neue")
    (mkManager "/fonts" "Helvetica Neue" none PfmFile.absent)
    (MplGlobals.mk none true []) "Helvetica Neue" "Helvetica Neue" rfl
  exact ⟨rfl, h.1, by rw [h.2.1]; rfl⟩

/-- C8: build_map iterates entries in input order, filters by family
name when a pattern is supplied, deduplicates families with
first-occurrence-wins semantics and stores each kept path through the
canonicalisation oracle; on the spec example with no filter it yields
Foo mapped to the first Foo path and Bar after it, and with a filter
accepting only names beginning with Ba it keeps just the Bar entry. -/
theorem build_map_first_occurrence_wins (resolveAbs : String → String) :
    build_map resolveAbs
      [("/a/Foo.ttf", "Foo"), ("/b/Foo.ttf", "Foo"), ("/c/Bar.ttf", "Bar")]
      none
      = [("Foo", resolveAbs "/a/Foo.ttf"), ("Bar", resolveAbs "/c/Bar.ttf")]
    ∧ build_map resolveAbs
      [("/a/Foo.ttf", "Foo"), ("/b/Foo.ttf", "Foo"), ("/c/Bar.ttf", "Bar")]
      (some (fun fam => fam.data.take 2 = ['B', 'a']))
      = [("Bar", resolveAbs "/c/Bar.ttf")] :=
  ⟨rfl, rfl⟩

/-- C9: collect_fc_list raises ToolMissing when fc-list is absent and
then yields no output at all, raises ToolError on a non-zero exit, and
on success splits each line at the first colon, keeps the first
comma-separated family alias stripped and with whitespace runs
collapsed, skips lines without a colon, and drops records whose family
came out empty. -/
theorem collect_fc_list_errors_and_parsing :
    collect_fc_list FcListOutcome.missing = Except.error ToolErr.toolMissing
    ∧ (∀ rc : Nat, collect_fc_list (FcListOutcome.failed rc)
        = Except.error ToolErr.toolError)
    ∧ collect_fc_list (FcListOutcome.ok
        "/a/F.ttf: Helvetica  Neue,HelveticaNeue Desk\nno colon here\n/b/x.ttf:   \n/c/y.ttf:Bar:Baz\n")
      = Except.ok [("/a/F.ttf", "Helvetica Neue"), ("/c/y.ttf", "Bar:Baz")] :=
  ⟨rfl, fun _ => rfl, rfl⟩

/-- C10: get_fontprop is a pure query.  The instance and the global
matplotlib state come back exactly as they were on every input, a
successful resolution returns a FontProperties handle holding the
resolved path with nothing registered, and a failing resolution
produces the very same error as _resolve_path. -/
theorem get_fontprop_pure_frame
    (fs : String → Bool) (self : PlotFontManager) (g : MplGlobals)
    (fontname p : String) :
    (get_fontprop fs self g fontname).2.1 = self
    ∧ (get_fontprop fs self g fontname).2.2 = g
    ∧ (resolvePath fs self fontname = Except.ok p →
        (get_fontprop fs self g fontname).1
          = Except.ok (FontProperties.mk p))
    ∧ (∀ e : Err, resolvePath fs self fontname = Except.error e →
        (get_fontprop fs self g fontname).1 = Except.error e) := by
  refine ⟨?_, ?_, ?_, ?_⟩
  · unfold get_fontprop
    cases resolvePath fs self fontname <;> rfl
  · unfold get_fontprop
    cases resolvePath fs self fontname <;> rfl
  · intro h
    unfold get_fontprop
    rw [h]
  · intro e h
    unfold get_fontprop
    rw [h]

/-- Witness for C10: a successful and a failing lookup, neither of
which moves any state. -/
theorem get_fontprop_pure_frame_w :
    ((get_fontprop (fun p => p == "/fonts/Optima.ttc")
        (mkManager "/fonts" "Optima" none PfmFile.absent)
        (MplGlobals.mk none true []) "Optima").1
      = Except.ok (FontProperties.mk "/fonts/Optima.ttc"))
    ∧ ((get_fontprop (fun _ => false)
        (mkManager "/fonts" "Optima" none PfmFile.absent)
        (MplGlobals.mk none true []) "Optima").1
      = Except.error Err.fileNotFound)
    ∧ ((get_fontprop (fun _ => false)
        (mkManager "/fonts" "Optima" none PfmFile.absent)
        (MplGlobals.mk none true []) "Optima").2.2
      = MplGlobals.mk none true []) :=
  ⟨(get_fontprop_pure_frame (fun p => p == "/fonts/Optima.ttc")
      (mkManager "/fonts" "Optima" none PfmFile.absent)
      (MplGlobals.mk none true []) "Optima" "/fonts/Optima.ttc").2.2.1 rfl,
   (get_fontprop_pure_frame (fun _ => false)
      (mkManager "/fonts" "Optima" none PfmFile.absent)
      (MplGlobals.mk none true []) "Optima" "").2.2.2 Err.fileNotFound rfl,
   (get_fontprop_pure_frame (fun _ => false)
      (mkManager "/fonts" "Optima" none PfmFile.absent)
      (MplGlobals.mk none true []) "Optima" "").2.1⟩
